import Mathlib

/-!
Verification of the agent-onboarding platform UI controller (`script.js`).

The script is a single-tab, single-threaded UI controller.  We shallowly
embed the pure data manipulation performed by its methods: DOM reads
(`document.getElementById(...)?.value` and friends) become explicit
parameters, the in-memory agent list becomes a `List Agent`, and
`localStorage` writes become explicit lists of written keys.  JavaScript
string truthiness (`undefined`/`''` are falsy) is modelled on
`Option String`.
-/

namespace AgentPlatform

/-- Model of a JavaScript string-valued DOM read: `none` is `undefined`
(the element is absent), `some s` is the element's string value. -/
abbrev DomStr := Option String

/-- JavaScript falsiness for a string-valued read: `undefined` and the
empty string are falsy. -/
def jsFalsy : DomStr → Bool
  | none => true
  | some s => s = ""

/-- `v || d` on a string-valued read: the value when truthy, else the
default `d`.  Models `document.getElementById(..)?.value || d`. -/
def jsOrStr (v : DomStr) (d : String) : String :=
  match v with
  | none => d
  | some s => if s = "" then d else s

/-- Model of `String.prototype.toLowerCase` (ASCII case folding). -/
def jsToLower (s : String) : String :=
  ⟨s.data.map Char.toLower⟩

/-- Model of `String.prototype.trim`: strip leading and trailing
whitespace. -/
def jsTrim (s : String) : String :=
  ⟨((s.data.dropWhile Char.isWhitespace).reverse.dropWhile
      Char.isWhitespace).reverse⟩

/-- `need` occurs at the start of `hay` (character lists). -/
def leadsWith : List Char → List Char → Bool
  | [], _ => true
  | _ :: _, [] => false
  | c :: cs, d :: ds => c = d && leadsWith cs ds

/-- `need` occurs contiguously somewhere in `hay` (character lists). -/
def hasSub (hay need : List Char) : Bool :=
  match hay with
  | [] => need.isEmpty
  | _ :: t => leadsWith need hay || hasSub t need

/-- Model of JavaScript `s.includes(sub)`: contiguous substring test. -/
def strIncludes (s sub : String) : Bool :=
  hasSub s.data sub.data

/-- An agent record.  The first block of fields is present on the
hard-coded sample records; the remaining fields are only set on records
created through the enhanced create form (absent ones are `none`,
matching the informally-typed JavaScript objects). -/
structure Agent where
  id : Nat
  name : String
  product : String
  host : String
  owner : String
  status : String
  successRate : Rat
  responseTime : Rat
  lastActive : String
  createdDate : String
  interactions : Nat
  fullName : Option String := none
  version : Option String := none
  branch : Option String := none
  description : Option String := none
  deploymentDate : DomStr := none
  isHeadless : Option Bool := none
  agentId : DomStr := none
  websiteUrl : DomStr := none
  privacyUrl : DomStr := none
  termsUrl : DomStr := none
  highestRing : DomStr := none
  agentType : DomStr := none
  selectedRings : Option (List String) := none
  applicationId : DomStr := none
  titleId : DomStr := none
  developer : DomStr := none
  plugins : Option (List String) := none
deriving DecidableEq

/-- First hard-coded sample record. -/
def sampleAgent1 : Agent :=
  { id := 1, name := "BizChat", product := "M365", host := "BizChat",
    owner := "System", status := "Active", successRate := 96.5,
    responseTime := 1.1, lastActive := "2024-12-04",
    createdDate := "2024-11-15", interactions := 2847 }

/-- Second hard-coded sample record. -/
def sampleAgent2 : Agent :=
  { id := 2, name := "LearningAgent", product := "M365", host := "Outlook",
    owner := "AI Team", status := "Active", successRate := 92.8,
    responseTime := 1.3, lastActive := "2024-12-04",
    createdDate := "2024-11-20", interactions := 1653 }

/-- Third hard-coded sample record. -/
def sampleAgent3 : Agent :=
  { id := 3, name := "SampleAgent", product := "M365", host := "BizChat",
    owner := "Dev Team", status := "Testing", successRate := 89.2,
    responseTime := 1.5, lastActive := "2024-12-03",
    createdDate := "2024-11-25", interactions := 892 }

/-- Fourth hard-coded sample record. -/
def sampleAgent4 : Agent :=
  { id := 4, name := "CustomerSupportBot", product := "Teams",
    host := "BizChat", owner := "Support Team", status := "Active",
    successRate := 94.7, responseTime := 0.9, lastActive := "2024-12-04",
    createdDate := "2024-10-30", interactions := 4156 }

/-- The hard-coded four-record sample data returned by `loadAgents`
when nothing (or something malformed) is stored. -/
def sampleAgents : List Agent :=
  [sampleAgent1, sampleAgent2, sampleAgent3, sampleAgent4]

/-- `loadAgents`: reads the `agents` key (`stored`; `none` when absent)
and runs `JSON.parse` on a truthy value (`parse s = none` models a parse
exception, caught by the surrounding `try`).  Any failure falls through
to the sample data. -/
def loadAgents (stored : DomStr) (parse : String → Option (List Agent)) :
    List Agent :=
  match stored with
  | none => sampleAgents
  | some s =>
    if s = "" then sampleAgents
    else
      match parse s with
      | none => sampleAgents
      | some v => v

/-- The search predicate inside `filterAgents` /
`filterAgentsByProduct`: the query is a case-insensitive substring of
the agent's `name`, `product`, `owner`, or `status`. -/
def matchesSearch (query : String) (a : Agent) : Bool :=
  strIncludes (jsToLower a.name) (jsToLower query) ||
  strIncludes (jsToLower a.product) (jsToLower query) ||
  strIncludes (jsToLower a.owner) (jsToLower query) ||
  strIncludes (jsToLower a.status) (jsToLower query)

/-- `filterAgents(query)`: search filter first (skipped when the trimmed
query is falsy), then the product filter read from the filter select
(skipped when falsy). -/
def filterAgents (agents : List Agent) (query productFilter : String) :
    List Agent :=
  let f1 := if jsTrim query = "" then agents
            else agents.filter (matchesSearch query)
  if productFilter = "" then f1
  else f1.filter (fun a => a.product = productFilter)

/-- `filterAgentsByProduct(product)`: product filter first (skipped when
falsy), then the search filter read from the search input (skipped when
its trimmed value is falsy). -/
def filterAgentsByProduct (agents : List Agent) (product searchQuery : String) :
    List Agent :=
  let f1 := if product = "" then agents
            else agents.filter (fun a => a.product = product)
  if jsTrim searchQuery = "" then f1
  else f1.filter (matchesSearch searchQuery)

/-- C1: with no product filter active, `filterAgents` on a non-blank
query keeps exactly the records whose `name`, `product`, `owner`, or
`status` contains the query case-insensitively; the match depends on no
other field. -/
theorem filterAgents_search_spec (agents : List Agent) (query : String)
    (h : jsTrim query ≠ "") :
    (∀ a : Agent, a ∈ filterAgents agents query "" ↔
        a ∈ agents ∧ matchesSearch query a = true) ∧
    (∀ a b : Agent, a.name = b.name → a.product = b.product →
        a.owner = b.owner → a.status = b.status →
        matchesSearch query a = matchesSearch query b) := by
  constructor
  · intro a
    simp [filterAgents, if_neg h, List.mem_filter]
  · intro a b hn hp ho hs
    simp [matchesSearch, hn, hp, ho, hs]

/-- Witness for C1 at the sample data and the query `"Team"`. -/
theorem filterAgents_search_spec_witness :
    (∀ a : Agent, a ∈ filterAgents sampleAgents "Team" "" ↔
        a ∈ sampleAgents ∧ matchesSearch "Team" a = true) ∧
    (∀ a b : Agent, a.name = b.name → a.product = b.product →
        a.owner = b.owner → a.status = b.status →
        matchesSearch "Team" a = matchesSearch "Team" b) :=
  filterAgents_search_spec sampleAgents "Team" (by decide)

/-- C8: applying the search filter then the product filter
(`filterAgents`) and applying the product filter then the search filter
(`filterAgentsByProduct`) select the same records in the same order. -/
theorem filter_entry_points_agree (agents : List Agent)
    (query product : String) :
    filterAgents agents query product =
      filterAgentsByProduct agents product query := by
  unfold filterAgents filterAgentsByProduct
  by_cases hq : jsTrim query = "" <;> by_cases hp : product = "" <;>
    simp [hq, hp, Bool.and_comm]

/-- C3: when the stored `agents` value fails to parse as JSON,
`loadAgents` returns the hard-coded sample data. -/
theorem loadAgents_parse_failure (stored : String)
    (parse : String → Option (List Agent)) (h : parse stored = none) :
    loadAgents (some stored) parse = sampleAgents := by
  unfold loadAgents
  by_cases hs : stored = "" <;> simp [hs, h]

/-- Witness for C3 at a concrete malformed stored value. -/
theorem loadAgents_parse_failure_witness :
    loadAgents (some "not valid json") (fun _ => none) = sampleAgents :=
  loadAgents_parse_failure "not valid json" (fun _ => none) rfl

/-- `deployAgent(id)`: `this.agents.find(a => a.id === id)` picks the
first record with the given id (if any) and `agent.status = 'Active'`
mutates it in place; no other record changes, and a miss changes
nothing. -/
def deployAgent : List Agent → Nat → List Agent
  | [], _ => []
  | a :: rest, tid =>
    if a.id = tid then { a with status := "Active" } :: rest
    else a :: deployAgent rest tid

/-- C5: deploying an agent's id overwrites that record's status with
`"Active"` — whatever the prior status string was — and leaves every
other record untouched. -/
theorem deployAgent_overwrites_status (pre post : List Agent) (a : Agent)
    (h : ∀ b ∈ pre, b.id ≠ a.id) :
    deployAgent (pre ++ a :: post) a.id =
      pre ++ { a with status := "Active" } :: post := by
  induction pre with
  | nil => simp [deployAgent]
  | cons b t ih =>
    have hb : b.id ≠ a.id := h b (by simp)
    simp only [List.cons_append, deployAgent, if_neg hb]
    exact congrArg (b :: ·) (ih fun c hc => h c (by simp [hc]))

/-- Witness for C5: deploying the sample `"Testing"` agent behind a
non-matching record. -/
theorem deployAgent_overwrites_status_witness :
    deployAgent ([sampleAgent1] ++ sampleAgent3 :: [sampleAgent4])
        sampleAgent3.id =
      [sampleAgent1] ++ { sampleAgent3 with status := "Active" } ::
        [sampleAgent4] :=
  deployAgent_overwrites_status [sampleAgent1] [sampleAgent4] sampleAgent3
    (by decide)

/-- The HTML row template inside `renderAgentsTable`, with the
template's fixed whitespace and decorative icon glyphs elided; every
interpolated expression (`agent.id`, `agent.name`, `agent.product`,
`agent.status.toLowerCase()`, `agent.status`, `agent.successRate`,
`this.formatDate(agent.lastActive)`, and the four `agent.id` button
handlers) appears in template order.  `formatDate` (locale date
rendering) is an explicit parameter. -/
def agentRowHtml (formatDate : String → String) (a : Agent) : String :=
  "<tr data-agent-id=\"" ++ toString a.id ++ "\">" ++
  "<td><div class=\"agent-name-cell\"><div class=\"agent-avatar\"></div>" ++
  "<span class=\"agent-name\">" ++ a.name ++ "</span></div></td>" ++
  "<td><span class=\"product-tag\">" ++ a.product ++ "</span></td>" ++
  "<td><span class=\"status-badge status-" ++ jsToLower a.status ++
  "\">" ++ a.status ++ "</span></td>" ++
  "<td><div class=\"success-rate\"><span>" ++ toString a.successRate ++
  "%</span><div class=\"rate-bar\"><div class=\"rate-fill\" style=\"width: " ++
  toString a.successRate ++ "%\"></div></div></div></td>" ++
  "<td>" ++ formatDate a.lastActive ++ "</td>" ++
  "<td><div class=\"action-buttons\">" ++
  "<button class=\"btn-icon\" onclick=\"agentManager.editAgent(" ++
  toString a.id ++ ")\" title=\"Edit\"></button>" ++
  "<button class=\"btn-icon\" onclick=\"agentManager.evaluateAgent(" ++
  toString a.id ++ ")\" title=\"Evaluate\"></button>" ++
  "<button class=\"btn-icon\" onclick=\"agentManager.viewMetrics(" ++
  toString a.id ++ ")\" title=\"Metrics\"></button>" ++
  "<button class=\"btn-icon\" onclick=\"agentManager.deployAgent(" ++
  toString a.id ++ ")\" title=\"Deploy\"></button>" ++
  "</div></td></tr>"

/-- `renderAgentsTable`: `this.agents.map(agent => ...)` — one row
string per record, in array order. -/
def renderAgentsTable (formatDate : String → String)
    (agents : List Agent) : List String :=
  agents.map (agentRowHtml formatDate)

/-- The `tbody.innerHTML` assignment: the row strings joined with
`''`. -/
def renderAgentsTableHtml (formatDate : String → String)
    (agents : List Agent) : String :=
  String.join (renderAgentsTable formatDate agents)

/-- C7: rendering produces exactly one row per record and the `i`-th
row is the row of the `i`-th record — array order, no pagination, no
reordering, no filtering. -/
theorem renderAgentsTable_rows (formatDate : String → String)
    (agents : List Agent) :
    (renderAgentsTable formatDate agents).length = agents.length ∧
    ∀ i : Nat, (renderAgentsTable formatDate agents)[i]? =
      (agents[i]?).map (agentRowHtml formatDate) := by
  refine ⟨by simp [renderAgentsTable], fun i => ?_⟩
  simp [renderAgentsTable]

/-- The DOM reads performed at the top of `createAgent`: each field is
the corresponding element's value (`none` when the element, checked
radio, or select is absent). -/
structure CreateForm where
  shortName : DomStr := none
  fullName : DomStr := none
  agentVersion : DomStr := none
  branchName : DomStr := none
  description : DomStr := none
  deploymentDate : DomStr := none
  isHeadless : Option Bool := none
  agentId : DomStr := none
  websiteUrl : DomStr := none
  privacyUrl : DomStr := none
  termsUrl : DomStr := none
  appStoreDescription : DomStr := none
  applicationId : DomStr := none
  titleId : DomStr := none
  developer : DomStr := none
  selectedRings : List String := []
  highestRing : DomStr := none
  agentType : DomStr := none
  pluginSelect : Option (List String) := none

/-- The blocking alert text of `createAgent` when a required field is
missing. -/
def createAgentRequiredMsg : String :=
  "Please fill in the required fields (Short Name and Full Name)"

/-- Result of a `createAgent` call: the agent list afterwards, the
blocking alert message (if validation failed), and the `localStorage`
keys written. -/
structure CreateOutcome where
  agents : List Agent
  error : Option String
  storageKeysWritten : List String

/-- The `newAgent` object literal built by `createAgent` on the success
path (`now` is `Date.now()`, `today` is
`new Date().toISOString().split('T')[0]`). -/
def newAgentOf (form : CreateForm) (now : Nat) (today : String) : Agent :=
  { id := now,
    name := form.shortName.getD "",
    fullName := some (form.fullName.getD ""),
    version := some (jsOrStr form.agentVersion "1.0.0"),
    branch := some (jsOrStr form.branchName "main"),
    description := some (jsOrStr form.description
      (jsOrStr form.appStoreDescription "No description provided")),
    product := "M365",
    host := "BizChat",
    owner := "Current User",
    status := "Testing",
    successRate := 0,
    responseTime := 0,
    lastActive := today,
    createdDate := today,
    interactions := 0,
    deploymentDate := form.deploymentDate,
    isHeadless := form.isHeadless,
    agentId := form.agentId,
    websiteUrl := form.websiteUrl,
    privacyUrl := form.privacyUrl,
    termsUrl := form.termsUrl,
    highestRing := form.highestRing,
    agentType := form.agentType,
    selectedRings := some form.selectedRings,
    applicationId := form.applicationId,
    titleId := form.titleId,
    developer := form.developer,
    plugins := some (form.pluginSelect.getD []) }

/-- `createAgent`: `if (!shortName || !fullName)` alerts and returns
with nothing changed; otherwise the new record is pushed onto the list
and `saveAgents` writes the `agents` key. -/
def createAgent (form : CreateForm) (now : Nat) (today : String)
    (agents : List Agent) : CreateOutcome :=
  if jsFalsy form.shortName || jsFalsy form.fullName then
    { agents := agents,
      error := some createAgentRequiredMsg,
      storageKeysWritten := [] }
  else
    { agents := agents ++ [newAgentOf form now today],
      error := none,
      storageKeysWritten := ["agents"] }

/-- C2: with a required field missing, `createAgent` leaves the list
and the persisted state untouched and shows an error message that
contains the name of each (indeed of every) required field. -/
theorem createAgent_missing_required (form : CreateForm) (now : Nat)
    (today : String) (agents : List Agent)
    (h : jsFalsy form.shortName = true ∨ jsFalsy form.fullName = true) :
    (createAgent form now today agents).agents = agents ∧
    (createAgent form now today agents).storageKeysWritten = [] ∧
    (createAgent form now today agents).error =
      some createAgentRequiredMsg ∧
    strIncludes createAgentRequiredMsg "Short Name" = true ∧
    strIncludes createAgentRequiredMsg "Full Name" = true := by
  have hcond : (jsFalsy form.shortName || jsFalsy form.fullName) = true := by
    rcases h with h | h <;> simp [h]
  refine ⟨?_, ?_, ?_, by decide, by decide⟩ <;>
    simp [createAgent, hcond]

/-- A concrete form with a short name but no full name. -/
def halfFilledForm : CreateForm :=
  { shortName := some "OrderBot" }

/-- A concrete form with both required fields present. -/
def filledForm : CreateForm :=
  { shortName := some "OrderBot", fullName := some "Order Bot" }

/-- Witness for C2: a form with a short name but no full name. -/
theorem createAgent_missing_required_witness :
    (createAgent halfFilledForm 99 "2024-12-05"
        sampleAgents).agents = sampleAgents ∧
    (createAgent halfFilledForm 99 "2024-12-05"
        sampleAgents).storageKeysWritten = [] ∧
    (createAgent halfFilledForm 99 "2024-12-05"
        sampleAgents).error = some createAgentRequiredMsg ∧
    strIncludes createAgentRequiredMsg "Short Name" = true ∧
    strIncludes createAgentRequiredMsg "Full Name" = true :=
  createAgent_missing_required halfFilledForm 99
    "2024-12-05" sampleAgents (Or.inr (by decide))

/-- C9: with both required fields present, `createAgent` appends
exactly one record at the end of the list, leaves the existing records
unchanged, and the new record starts with status `"Testing"`,
`successRate` 0, `responseTime` 0, and `interactions` 0. -/
theorem createAgent_success (form : CreateForm) (now : Nat)
    (today : String) (agents : List Agent)
    (h1 : jsFalsy form.shortName = false)
    (h2 : jsFalsy form.fullName = false) :
    (createAgent form now today agents).agents =
      agents ++ [newAgentOf form now today] ∧
    (createAgent form now today agents).error = none ∧
    (newAgentOf form now today).status = "Testing" ∧
    (newAgentOf form now today).successRate = 0 ∧
    (newAgentOf form now today).responseTime = 0 ∧
    (newAgentOf form now today).interactions = 0 := by
  refine ⟨?_, ?_, rfl, rfl, rfl, rfl⟩ <;> simp [createAgent, h1, h2]

/-- Witness for C9: a fully specified required pair on the sample
list. -/
theorem createAgent_success_witness :
    (createAgent filledForm 99 "2024-12-05" sampleAgents).agents =
      sampleAgents ++ [newAgentOf filledForm 99 "2024-12-05"] ∧
    (createAgent filledForm 99 "2024-12-05" sampleAgents).error = none ∧
    (newAgentOf filledForm 99 "2024-12-05").status = "Testing" ∧
    (newAgentOf filledForm 99 "2024-12-05").successRate = 0 ∧
    (newAgentOf filledForm 99 "2024-12-05").responseTime = 0 ∧
    (newAgentOf filledForm 99 "2024-12-05").interactions = 0 :=
  createAgent_success filledForm 99 "2024-12-05" sampleAgents
    (by decide) (by decide)

/-- A user action on the onboarding overlay after `showOnboarding`:
`nextOnboardingStep`, `previousOnboardingStep`, or
`goToOnboardingStep(stepIndex)`. -/
inductive OnbOp where
  | next
  | prev
  | goTo (stepIndex : Int)

/-- One onboarding action on the `onboardingStep` counter `s`, with
`totalSteps = document.querySelectorAll('.onboarding-step').length`:
`next` increments below `totalSteps - 1` (at the last step it calls
`closeOnboarding`, leaving the counter alone), `prev` decrements above
0, and `goTo i` jumps when `i >= 0 && i < totalSteps`. -/
def applyOnbOp (totalSteps s : Int) : OnbOp → Int
  | .next => if s < totalSteps - 1 then s + 1 else s
  | .prev => if s > 0 then s - 1 else s
  | .goTo i => if 0 ≤ i ∧ i < totalSteps then i else s

/-- The counter after `showOnboarding` (which sets `onboardingStep = 0`)
followed by a sequence of onboarding actions. -/
def runOnboarding (totalSteps : Int) (ops : List OnbOp) : Int :=
  ops.foldl (applyOnbOp totalSteps) 0

/-- C10: with at least one onboarding step in the overlay, every
sequence of onboarding actions keeps the step counter within
`[0, totalSteps)`. -/
theorem onboarding_step_in_bounds (totalSteps : Int) (ops : List OnbOp)
    (h : 1 ≤ totalSteps) :
    0 ≤ runOnboarding totalSteps ops ∧
      runOnboarding totalSteps ops < totalSteps := by
  suffices H : ∀ (l : List OnbOp) (s : Int), 0 ≤ s → s < totalSteps →
      0 ≤ l.foldl (applyOnbOp totalSteps) s ∧
        l.foldl (applyOnbOp totalSteps) s < totalSteps by
    exact H ops 0 le_rfl (by omega)
  intro l
  induction l with
  | nil => exact fun s h0 h1 => ⟨h0, h1⟩
  | cons op t ih =>
    intro s h0 h1
    refine ih _ ?_ ?_ <;>
      cases op <;> simp only [applyOnbOp] <;> split <;> omega

/-- Witness for C10: a four-step overlay and a concrete action
sequence. -/
theorem onboarding_step_in_bounds_witness :
    0 ≤ runOnboarding 4 [OnbOp.next, OnbOp.next, OnbOp.goTo 3,
        OnbOp.prev] ∧
      runOnboarding 4 [OnbOp.next, OnbOp.next, OnbOp.goTo 3,
        OnbOp.prev] < 4 :=
  onboarding_step_in_bounds 4 [OnbOp.next, OnbOp.next, OnbOp.goTo 3,
    OnbOp.prev] (by decide)

/-- The `handleLifecycleStep` step-to-view map (`stepViewMap`). -/
def stepViewMap (step : String) : Option String :=
  if step = "create" then some "create"
  else if step = "configure" then some "configure"
  else if step = "evaluate" then some "playground"
  else if step = "evaluate-prompts" then some "tprompt"
  else if step = "deploy" then some "dashboard"
  else if step = "monitor" then some "metrics"
  else none

/-- The code paths of `script.js` that call `localStorage.setItem`:
`saveAgents`, the inline save in `updateAgentConfiguration`,
`closeOnboarding`, and the per-step guidance flag writes in
`handleLifecycleStep` and `handleLifecycleStepWithGuidance` (the latter
two write only when the step is mapped / the guidance has not been
shown to a non-first-time visitor). -/
inductive PersistOp where
  | saveAgents (agents : List Agent)
  | updateAgentConfiguration (agents : List Agent)
  | closeOnboarding
  | handleLifecycleStep (step : String) (firstVisit guidanceShown : Bool)
  | lifecycleWithGuidance (step : String) (firstVisit guidanceShown : Bool)

/-- The `localStorage` keys written by one such code path. -/
def persistKeys : PersistOp → List String
  | .saveAgents _ => ["agents"]
  | .updateAgentConfiguration _ => ["agents"]
  | .closeOnboarding => ["hasVisited"]
  | .handleLifecycleStep step firstVisit guidanceShown =>
    match stepViewMap step with
    | some _ =>
      if firstVisit || !guidanceShown then
        ["guidance_" ++ step ++ "_shown"]
      else []
    | none => []
  | .lifecycleWithGuidance step firstVisit guidanceShown =>
    (match stepViewMap step with
     | some _ =>
       if firstVisit || !guidanceShown then
         ["guidance_" ++ step ++ "_shown"]
       else []
     | none => []) ++
      (if firstVisit || !guidanceShown then
        ["guidance_" ++ step ++ "_shown"]
      else [])

/-- Counterexample to C4: clicking the `create` lifecycle step as a
first-time visitor persists the key `guidance_create_shown`, which is
neither the agents key nor the onboarding-flag key. -/
theorem persisted_keys_beyond_two :
    persistKeys (PersistOp.handleLifecycleStep "create" true false) =
      ["guidance_create_shown"] ∧
    "guidance_create_shown" ≠ "agents" ∧
    "guidance_create_shown" ≠ "hasVisited" := by
  refine ⟨rfl, by decide, by decide⟩

/-- C4 (amended): every `localStorage` key the program writes is the
agents key, the `hasVisited` onboarding flag, or a per-lifecycle-step
`guidance_<step>_shown` flag. -/
theorem persisted_keys_classified (op : PersistOp) :
    ∀ k ∈ persistKeys op, k = "agents" ∨ k = "hasVisited" ∨
      ∃ step : String, k = "guidance_" ++ step ++ "_shown" := by
  intro k hk
  cases op with
  | saveAgents agents =>
    simp [persistKeys] at hk; simp [hk]
  | updateAgentConfiguration agents =>
    simp [persistKeys] at hk; simp [hk]
  | closeOnboarding =>
    simp [persistKeys] at hk; simp [hk]
  | handleLifecycleStep step fv gs =>
    simp only [persistKeys] at hk
    rcases hm : stepViewMap step with _ | v <;> rw [hm] at hk
    · simp at hk
    · split at hk
      · simp at hk
        exact Or.inr (Or.inr ⟨step, hk.2⟩)
      · simp at hk
  | lifecycleWithGuidance step fv gs =>
    simp only [persistKeys] at hk
    rw [List.mem_append] at hk
    rcases hk with hk | hk
    · rcases hm : stepViewMap step with _ | v <;> rw [hm] at hk
      · simp at hk
      · split at hk
        · simp at hk
          exact Or.inr (Or.inr ⟨step, hk.2⟩)
        · simp at hk
    · split at hk
      · simp at hk
        exact Or.inr (Or.inr ⟨step, hk⟩)
      · simp at hk

/-- Witness for the amended C4 at a concrete write. -/
theorem persisted_keys_classified_witness :
    "agents" = "agents" ∨ "agents" = "hasVisited" ∨
      ∃ step : String, "agents" = "guidance_" ++ step ++ "_shown" :=
  persisted_keys_classified (PersistOp.saveAgents []) "agents"
    (by decide)

/-- A JSON value as assembled by `updateManifest`. -/
inductive JsonVal where
  | jstr (s : String)
  | jnull
  | jobj (fields : List (String × JsonVal))
  | jarr (elems : List JsonVal)

/-- The `=== '' || === null` test of `updateManifest`'s empty-field
removal pass. -/
def isRemovedVal : JsonVal → Bool
  | .jstr s => s = ""
  | .jnull => true
  | _ => false

/-- The DOM reads performed by `updateManifest`: the create-form field
values, the checked ring and agent-type radios, and the plugin
multi-select (`none` when the element is absent). -/
structure ManifestForm where
  shortName : DomStr := none
  fullName : DomStr := none
  agentVersion : DomStr := none
  branchName : DomStr := none
  description : DomStr := none
  deploymentDate : DomStr := none
  selectedRing : DomStr := none
  agentType : DomStr := none
  pluginSelect : Option (List String) := none

/-- `updateManifest`: assembles the manifest object literal from the
form fields with their hard-coded fallbacks, then deletes every
top-level key whose value is `''` or `null`. -/
def updateManifest (form : ManifestForm) : List (String × JsonVal) :=
  let shortName := jsOrStr form.shortName "EAgent"
  let fullName := jsOrStr form.fullName "EmailAgent"
  let agentVersion := jsOrStr form.agentVersion "1.0.0"
  let branchName := jsOrStr form.branchName "main"
  let description := jsOrStr form.description ""
  let deploymentDate := jsOrStr form.deploymentDate ""
  let selectedRing := jsOrStr form.selectedRing "DEV"
  let agentType := jsOrStr form.agentType "1P"
  let selectedPlugins := match form.pluginSelect with
    | some l => l
    | none => ["canvas", "code_interpreter", "fetch_enterprise_chat",
               "image_understanding"]
  let pluginsObject :=
    JsonVal.jobj (selectedPlugins.map fun p => (p, JsonVal.jobj []))
  let manifest : List (String × JsonVal) :=
    [("version", .jstr agentVersion),
     ("name", .jstr shortName),
     ("display_name", .jstr fullName),
     ("description", .jstr description),
     ("branch", .jstr branchName),
     ("deployment_target", .jstr deploymentDate),
     ("highest_allowed_ring", .jstr selectedRing),
     ("agent_type", .jstr agentType),
     ("parent_agent", .jobj [("name", .jstr "BaseChatAgent")]),
     ("patches", .jarr [JsonVal.jobj
        [("op", .jstr "add"),
         ("path", .jstr "/chat/orchestration/plugins"),
         ("value", pluginsObject)]])]
  manifest.filter fun kv => !isRemovedVal kv.2

/-- A form state with every element absent. -/
def emptyManifestForm : ManifestForm := {}

/-- The same form state with a non-empty description. -/
def describedManifestForm : ManifestForm :=
  { description := some "Sorts email" }

/-- Counterexample to C6: with no description the `description` (and
`deployment_target`) keys are deleted by the empty-field removal pass,
so two form states produce different top-level key sets. -/
theorem updateManifest_keys_vary :
    (updateManifest emptyManifestForm).map Prod.fst =
      ["version", "name", "display_name", "branch",
       "highest_allowed_ring", "agent_type", "parent_agent",
       "patches"] ∧
    (updateManifest describedManifestForm).map Prod.fst =
      ["version", "name", "display_name", "description", "branch",
       "highest_allowed_ring", "agent_type", "parent_agent",
       "patches"] ∧
    (updateManifest emptyManifestForm).map Prod.fst ≠
      (updateManifest describedManifestForm).map Prod.fst := by
  refine ⟨rfl, rfl, by decide⟩

/-- `jsOrStr` with a non-empty default never yields the empty
string. -/
theorem jsOrStr_ne_empty (v : DomStr) (d : String) (hd : d ≠ "") :
    jsOrStr v d ≠ "" := by
  cases v with
  | none => simpa [jsOrStr] using hd
  | some s =>
    by_cases hs : s = "" <;> simp [jsOrStr, hs, hd]

/-- C6 (amended): the manifest always carries the fixed top-level keys
`version`, `name`, `display_name`, `branch`, `highest_allowed_ring`,
`agent_type`, `parent_agent`, `patches` (their fallbacks are
non-empty), while `description` and `deployment_target` — whose
fallback is the empty string — are present exactly when their field is
non-empty. -/
theorem updateManifest_key_shape (form : ManifestForm) :
    (updateManifest form).map Prod.fst =
      ["version", "name", "display_name"] ++
      (if jsOrStr form.description "" = "" then [] else
        ["description"]) ++
      ["branch"] ++
      (if jsOrStr form.deploymentDate "" = "" then [] else
        ["deployment_target"]) ++
      ["highest_allowed_ring", "agent_type", "parent_agent",
       "patches"] := by
  have h1 : jsOrStr form.agentVersion "1.0.0" ≠ "" :=
    jsOrStr_ne_empty _ _ (by decide)
  have h2 : jsOrStr form.shortName "EAgent" ≠ "" :=
    jsOrStr_ne_empty _ _ (by decide)
  have h3 : jsOrStr form.fullName "EmailAgent" ≠ "" :=
    jsOrStr_ne_empty _ _ (by decide)
  have h4 : jsOrStr form.branchName "main" ≠ "" :=
    jsOrStr_ne_empty _ _ (by decide)
  have h5 : jsOrStr form.selectedRing "DEV" ≠ "" :=
    jsOrStr_ne_empty _ _ (by decide)
  have h6 : jsOrStr form.agentType "1P" ≠ "" :=
    jsOrStr_ne_empty _ _ (by decide)
  by_cases hd : jsOrStr form.description "" = "" <;>
    by_cases ht : jsOrStr form.deploymentDate "" = "" <;>
      simp [updateManifest, isRemovedVal, h1, h2, h3, h4, h5, h6,
        hd, ht]

end AgentPlatform
